import Mathlib

/-!
A shallow embedding of the durable-outbox core of the `rfid-reader`
repository: the SQLite-backed event store (`DatabaseManager` in
`rfid_reader.py`), the retry scheduler embedded in
`update_sync_status`, the delivery client (`send_webhook`), the sync
worker's drain pass (`sync_pending_data`), and the one-shot schema
migrator (`migrate_db.py`).

Timestamps are modelled as integers counting minutes (the backoff unit
of the source); SQLite `datetime('now')` and Python `datetime.now()`
are both mapped to an explicit `now` parameter.  `NULL`-able columns
are `Option`s, the `sync_status` column is the literal strings
`"pending"` / `"success"` the source stores.
-/

namespace RfidReader

/-- `min(2 ** (attempts - 1), 1440)` from
`DatabaseManager.update_sync_status` (rfid_reader.py line 151): the
exponential backoff in minutes, capped at 24 hours. -/
def backoff_minutes (attempts : Nat) : Nat :=
  min (2 ^ (attempts - 1)) 1440

/-- One row of the `card_reads` table, columns as created by
`DatabaseManager.init_database` (rfid_reader.py lines 63-77). -/
structure CardRead where
  id : Nat
  device_id : String
  card_id : String
  card_value : String
  timestamp : Int
  sync_status : String
  sync_attempts : Nat
  last_sync_attempt : Option Int
  next_retry : Option Int
  webhook_response : Option String
  created_at : Int
deriving Repr, DecidableEq

/-- The persisted store: the `card_reads` table plus the
`AUTOINCREMENT` counter that assigns surrogate ids. -/
structure DB where
  rows : List CardRead
  nextId : Nat
deriving Repr, DecidableEq

/-- The empty store, as produced by `init_database` on a fresh path. -/
def DB.empty : DB := { rows := [], nextId := 1 }

/-- The row built by the `INSERT` of `DatabaseManager.insert_card_read`
(rfid_reader.py lines 102-105): explicit `next_retry = datetime('now')`,
the remaining columns from the schema defaults
(`sync_status 'pending'`, `sync_attempts 0`, timestamps
`CURRENT_TIMESTAMP`, the rest `NULL`). -/
def newCardRead (rowId : Nat) (now : Int) (dev card value : String) : CardRead :=
  { id := rowId
    device_id := dev
    card_id := card
    card_value := value
    timestamp := now
    sync_status := "pending"
    sync_attempts := 0
    last_sync_attempt := none
    next_retry := some now
    webhook_response := none
    created_at := now }

/-- `DatabaseManager.insert_card_read`: append one new `pending` row
and return the assigned `lastrowid`. -/
def insert_card_read (db : DB) (now : Int) (dev card value : String) :
    DB × Nat :=
  ({ rows := db.rows ++ [newCardRead db.nextId now dev card value]
     nextId := db.nextId + 1 }, db.nextId)

/-- The `WHERE` clause of `DatabaseManager.get_pending_syncs`
(rfid_reader.py lines 122-124): status `'pending'`, `next_retry` `NULL`
or past, and `created_at` within the last `maxAgeDays` days
(a day is 1440 minutes). -/
def isDue (now : Int) (maxAgeDays : Nat) (r : CardRead) : Bool :=
  r.sync_status == "pending"
    && (match r.next_retry with
        | none => true
        | some t => decide (t ≤ now))
    && decide (now - (maxAgeDays : Int) * 1440 ≤ r.created_at)

/-- `DatabaseManager.get_pending_syncs`: a `SELECT` ordered by
`created_at ASC`; it returns the matching rows and leaves the store
untouched. -/
def get_pending_syncs (db : DB) (now : Int) (maxAgeDays : Nat) :
    DB × List CardRead :=
  (db, (db.rows.filter (isDue now maxAgeDays)).insertionSort
        (fun a b => a.created_at ≤ b.created_at))

/-- The effect of `DatabaseManager.update_sync_status` on a single row
(rfid_reader.py lines 138-159): on `'success'` only status, response
and `last_sync_attempt` change; otherwise the attempt counter is set
(read back from the row, plus one, when the caller passed `None`),
and `next_retry` becomes `now + backoff`. -/
def applyUpdate (now : Int) (rowId : Nat) (status : String)
    (response : Option String) (attempts : Option Nat) (r : CardRead) :
    CardRead :=
  if r.id = rowId then
    if status == "success" then
      { r with sync_status := status
               webhook_response := response
               last_sync_attempt := some now }
    else
      let a := attempts.getD (r.sync_attempts + 1)
      { r with sync_status := status
               sync_attempts := a
               last_sync_attempt := some now
               next_retry := some (now + (backoff_minutes a : Int))
               webhook_response := response }
  else r

/-- `DatabaseManager.update_sync_status`: one atomic `UPDATE` keyed on
`id`. -/
def update_sync_status (db : DB) (now : Int) (rowId : Nat)
    (status : String) (response : Option String) (attempts : Option Nat) :
    DB :=
  { db with rows := db.rows.map (applyUpdate now rowId status response attempts) }

/-- The JSON body `RFIDReader.send_webhook` posts (rfid_reader.py
lines 351-355). -/
structure Payload where
  device_id : String
  card_id : String
  card_value : String

/-- How one HTTP round-trip can end, as `send_webhook` distinguishes
the cases: a 200 response, a non-200 response, or a
`RequestException`. -/
inductive NetResult where
  | ok (body : String)
  | httpError (code : Nat) (body : String)
  | transportError (msg : String)

/-- The configuration keys the delivery path reads. -/
structure Config where
  webhook_url : Option String
  api_key : Option String

/-- `RFIDReader.send_webhook` (rfid_reader.py lines 344-383): with no
`webhook_url` configured it returns `(False, "No webhook URL
configured")` at once; otherwise it performs one request against the
network (modelled by the oracle `net`) and maps the response.  The
second component counts the network requests performed by the call. -/
def send_webhook (cfg : Config) (net : Payload → NetResult)
    (dev card value : String) : (Bool × String) × Nat :=
  match cfg.webhook_url with
  | none => ((false, "No webhook URL configured"), 0)
  | some _ =>
    match net { device_id := dev, card_id := card, card_value := value } with
    | NetResult.ok body => ((true, body), 1)
    | NetResult.httpError code body =>
        ((false, "HTTP " ++ toString code ++ ": " ++ body), 1)
    | NetResult.transportError msg => ((false, msg), 1)

/-- The per-event body of `RFIDReader.sync_pending_data`
(rfid_reader.py lines 412-427): deliver, then record `'success'`, or
record `'pending'` with the fetched attempt count plus one. -/
def syncOne (cfg : Config) (selfDev : String) (net : Payload → NetResult)
    (now : Int) (acc : DB × Nat) (item : CardRead) : DB × Nat :=
  match send_webhook cfg net selfDev item.card_id item.card_value with
  | ((true, response), n) =>
      (update_sync_status acc.1 now item.id "success" (some response) none,
       acc.2 + n)
  | ((false, response), n) =>
      (update_sync_status acc.1 now item.id "pending" (some response)
         (some (item.sync_attempts + 1)),
       acc.2 + n)

/-- `RFIDReader.sync_pending_data`: fetch the due batch (the default
7-day window) and process it in order; the second component counts
network requests made during the pass. -/
def sync_pending_data (cfg : Config) (selfDev : String)
    (net : Payload → NetResult) (now : Int) (db : DB) : DB × Nat :=
  ((get_pending_syncs db now 7).2).foldl (syncOne cfg selfDev net now) (db, 0)

/-- The operations the running system applies to the store: the capture
path's `insert_card_read` (rfid_reader.py line 467) and one drain pass
of the sync worker. -/
inductive SysOp where
  | capture (now : Int) (dev card value : String)
  | drain (cfg : Config) (selfDev : String) (net : Payload → NetResult) (now : Int)

/-- Apply one system operation to the store. -/
def runOp (db : DB) : SysOp → DB
  | SysOp.capture now dev card value => (insert_card_read db now dev card value).1
  | SysOp.drain cfg selfDev net now => (sync_pending_data cfg selfDev net now db).1

/-- Apply a sequence of system operations to the store. -/
def runOps (db : DB) (ops : List SysOp) : DB := ops.foldl runOp db

/-- One row of the legacy `card_reads` table: no `card_id` column, the
payload lives in `card_value` (migrate_db.py lines 4, 75-76). -/
structure LegacyCardRead where
  id : Nat
  device_id : String
  card_value : String
  timestamp : Int
  sync_status : String
  sync_attempts : Nat
  last_sync_attempt : Option Int
  next_retry : Option Int
  webhook_response : Option String
  created_at : Int
deriving Repr, DecidableEq

/-- The per-row mapping of the migration `INSERT ... SELECT`
(migrate_db.py lines 77-88): legacy `card_value` becomes `card_id`,
the new `card_value` is the empty string, every other column is copied
verbatim. -/
def migrateRow (r : LegacyCardRead) : CardRead :=
  { id := r.id
    device_id := r.device_id
    card_id := r.card_value
    card_value := ""
    timestamp := r.timestamp
    sync_status := r.sync_status
    sync_attempts := r.sync_attempts
    last_sync_attempt := r.last_sync_attempt
    next_retry := r.next_retry
    webhook_response := r.webhook_response
    created_at := r.created_at }

/-- The on-disk layouts the migrator can encounter: the legacy schema,
the current schema, and a store whose layout cannot be probed (the
exception path of `check_schema_version`). -/
inductive SchemaDB where
  | legacy (rows : List LegacyCardRead)
  | current (rows : List CardRead)
  | unreadable
deriving Repr, DecidableEq

/-- `check_schema_version` (migrate_db.py lines 19-36): `"new"` when the
`card_id` column is present, `"old"` when it is not, `"unknown"` when
the probe itself fails. -/
def check_schema_version : SchemaDB → String
  | SchemaDB.legacy _ => "old"
  | SchemaDB.current _ => "new"
  | SchemaDB.unreadable => "unknown"

/-- `migrate_database` (migrate_db.py lines 38-110): a no-op on the new
schema, a plain return (no change) on an undetermined schema, and the
copy-and-replace table rebuild on the legacy schema. -/
def migrate_database : SchemaDB → SchemaDB
  | SchemaDB.legacy rows => SchemaDB.current (rows.map migrateRow)
  | SchemaDB.current rows => SchemaDB.current rows
  | SchemaDB.unreadable => SchemaDB.unreadable

/-- The observable result of the migration entry point `main`
(migrate_db.py lines 112-135). -/
inductive MigrateMainResult where
  | noDatabase
  | alreadyNew
  | migrated
  | exitError (code : Nat)
deriving Repr, DecidableEq

/-- `main` of migrate_db.py: skip when no database file exists,
otherwise classify the schema; migrate on `"old"`, report on `"new"`,
and `sys.exit(1)` when the schema cannot be determined. -/
def migrate_main (dbExists : Bool) (db : SchemaDB) :
    MigrateMainResult × SchemaDB :=
  if !dbExists then (MigrateMainResult.noDatabase, db)
  else
    let v := check_schema_version db
    if v == "new" then (MigrateMainResult.alreadyNew, db)
    else if v == "old" then (MigrateMainResult.migrated, migrate_database db)
    else (MigrateMainResult.exitError 1, db)

/-- An event already marked delivered: every row carrying this id has
`sync_status = 'success'`. -/
def deliveredAt (db : DB) (rid : Nat) : Prop :=
  ∀ r ∈ db.rows, r.id = rid → r.sync_status = "success"

/-- A sample legacy row used by concrete witnesses, its payload column
holding `"ABC123"`. -/
def sampleLegacyRow : LegacyCardRead :=
  { id := 1
    device_id := "dev"
    card_value := "ABC123"
    timestamp := 4
    sync_status := "pending"
    sync_attempts := 2
    last_sync_attempt := some 3
    next_retry := some 9
    webhook_response := some "err"
    created_at := 4 }

end RfidReader

namespace RfidReader

/-- C1: for every attempt count `n ≥ 1` the backoff equals
`min(2^(n-1), 1440)` minutes, the sequence is non-decreasing in `n`,
it never exceeds 1440 minutes, and from `n = 12` on it sits exactly at
the 1440-minute (24-hour) cap. -/
theorem backoff_formula_monotone_saturates (n : Nat) (h : 1 ≤ n) :
    backoff_minutes n = min (2 ^ (n - 1)) 1440 ∧
    backoff_minutes n ≤ backoff_minutes (n + 1) ∧
    backoff_minutes n ≤ 1440 ∧
    (12 ≤ n → backoff_minutes n = 1440) := by
  refine ⟨rfl, ?_, ?_, ?_⟩
  · unfold backoff_minutes
    exact min_le_min
      (Nat.pow_le_pow_right (by norm_num) (Nat.sub_le_sub_right (Nat.le_succ n) 1))
      le_rfl
  · exact min_le_right _ _
  · intro h12
    unfold backoff_minutes
    refine min_eq_right ?_
    calc (1440 : Nat) ≤ 2 ^ 11 := by norm_num
    _ ≤ 2 ^ (n - 1) := Nat.pow_le_pow_right (by norm_num) (by omega)

/-- Witness for C1 at `n = 3`: backoff is 4 minutes there and the
conjuncts hold. -/
theorem backoff_formula_monotone_saturates_witness :
    backoff_minutes 3 = min (2 ^ (3 - 1)) 1440 ∧
    backoff_minutes 3 ≤ backoff_minutes (3 + 1) ∧
    backoff_minutes 3 ≤ 1440 ∧
    (12 ≤ 3 → backoff_minutes 3 = 1440) :=
  backoff_formula_monotone_saturates 3 (by decide)

/-- `applyUpdate` never changes the `id` column. -/
theorem applyUpdate_id (now : Int) (rowId : Nat) (status : String)
    (resp : Option String) (att : Option Nat) (r : CardRead) :
    (applyUpdate now rowId status resp att r).id = r.id := by
  unfold applyUpdate
  split
  · split <;> rfl
  · rfl

/-- `applyUpdate` leaves rows with a different `id` untouched. -/
theorem applyUpdate_ne (now : Int) (rowId : Nat) (status : String)
    (resp : Option String) (att : Option Nat) (r : CardRead)
    (h : r.id ≠ rowId) :
    applyUpdate now rowId status resp att r = r := by
  unfold applyUpdate
  rw [if_neg h]

/-- The freshly inserted row satisfies the `get_pending_syncs` filter
at insertion time, for every age window. -/
theorem newCardRead_isDue (i : Nat) (now : Int) (dev card value : String)
    (maxAgeDays : Nat) :
    isDue now maxAgeDays (newCardRead i now dev card value) = true := by
  simp only [isDue, newCardRead, Bool.and_eq_true, beq_self_eq_true,
    decide_eq_true_eq, true_and]
  refine ⟨le_refl now, ?_⟩
  have : (0 : Int) ≤ (maxAgeDays : Int) * 1440 := by positivity
  omega

/-- C2: `insert_card_read` appends exactly one row, with
`sync_status = 'pending'`, `sync_attempts = 0`, `next_retry = now` and
the given field values; an immediate `get_pending_syncs` with any age
window returns it, and from the empty store it is the only row
returned. -/
theorem insert_then_fetch (db : DB) (now : Int) (dev card value : String)
    (maxAgeDays : Nat) :
    (insert_card_read db now dev card value).1.rows
        = db.rows ++ [newCardRead db.nextId now dev card value] ∧
    (newCardRead db.nextId now dev card value).sync_status = "pending" ∧
    (newCardRead db.nextId now dev card value).sync_attempts = 0 ∧
    (newCardRead db.nextId now dev card value).next_retry = some now ∧
    (newCardRead db.nextId now dev card value).device_id = dev ∧
    (newCardRead db.nextId now dev card value).card_id = card ∧
    (newCardRead db.nextId now dev card value).card_value = value ∧
    newCardRead db.nextId now dev card value
      ∈ (get_pending_syncs (insert_card_read db now dev card value).1
          now maxAgeDays).2 ∧
    (get_pending_syncs (insert_card_read DB.empty now dev card value).1
          now maxAgeDays).2
      = [newCardRead DB.empty.nextId now dev card value] := by
  refine ⟨rfl, rfl, rfl, rfl, rfl, rfl, rfl, ?_, ?_⟩
  · simp only [get_pending_syncs, List.mem_insertionSort, List.mem_filter]
    exact ⟨by simp [insert_card_read], newCardRead_isDue _ _ _ _ _ _⟩
  · simp only [get_pending_syncs, insert_card_read, DB.empty,
      List.nil_append, List.filter_cons, List.filter_nil,
      newCardRead_isDue, if_true]
    rfl

/-- C5: the legacy branch of `migrate_database` maps each legacy row to
a current row with `card_id` taken from the legacy payload column,
`card_value` empty, and every other column copied verbatim; no row is
lost. -/
theorem migrate_row_mapping (rows : List LegacyCardRead)
    (r : LegacyCardRead) (hr : r ∈ rows) :
    migrate_database (SchemaDB.legacy rows)
        = SchemaDB.current (rows.map migrateRow) ∧
    (rows.map migrateRow).length = rows.length ∧
    migrateRow r ∈ rows.map migrateRow ∧
    (migrateRow r).card_id = r.card_value ∧
    (migrateRow r).card_value = "" ∧
    (migrateRow r).id = r.id ∧
    (migrateRow r).device_id = r.device_id ∧
    (migrateRow r).sync_status = r.sync_status ∧
    (migrateRow r).sync_attempts = r.sync_attempts ∧
    (migrateRow r).timestamp = r.timestamp ∧
    (migrateRow r).last_sync_attempt = r.last_sync_attempt ∧
    (migrateRow r).next_retry = r.next_retry ∧
    (migrateRow r).webhook_response = r.webhook_response ∧
    (migrateRow r).created_at = r.created_at :=
  ⟨rfl, by simp, List.mem_map_of_mem _ hr, rfl, rfl, rfl, rfl, rfl, rfl,
   rfl, rfl, rfl, rfl, rfl⟩

/-- Witness for C5 on a one-row legacy table holding payload
`"ABC123"`. -/
theorem migrate_row_mapping_witness :
    sampleLegacyRow ∈ [sampleLegacyRow] ∧
    (migrate_database (SchemaDB.legacy [sampleLegacyRow])
        = SchemaDB.current ([sampleLegacyRow].map migrateRow) ∧
      ([sampleLegacyRow].map migrateRow).length = [sampleLegacyRow].length ∧
      migrateRow sampleLegacyRow ∈ [sampleLegacyRow].map migrateRow ∧
      (migrateRow sampleLegacyRow).card_id = sampleLegacyRow.card_value ∧
      (migrateRow sampleLegacyRow).card_value = "") :=
  ⟨by decide, by
    have h := migrate_row_mapping [sampleLegacyRow] sampleLegacyRow
      (by decide)
    exact ⟨h.1, h.2.1, h.2.2.1, h.2.2.2.1, h.2.2.2.2.1⟩⟩

/-- C6: `get_pending_syncs` leaves the store unchanged, and a pending
row whose `created_at` is older than the age window is excluded from
the returned sequence (while remaining in the store). -/
theorem fetch_excludes_old_untouched (db : DB) (now : Int)
    (maxAgeDays : Nat) (r : CardRead) (hmem : r ∈ db.rows)
    (hp : r.sync_status = "pending")
    (hold : r.created_at < now - (maxAgeDays : Int) * 1440) :
    (get_pending_syncs db now maxAgeDays).1 = db ∧
    r ∉ (get_pending_syncs db now maxAgeDays).2 ∧
    r ∈ (get_pending_syncs db now maxAgeDays).1.rows := by
  refine ⟨rfl, ?_, hmem⟩
  simp only [get_pending_syncs, List.mem_insertionSort, List.mem_filter]
  rintro ⟨-, hdue⟩
  simp only [isDue, Bool.and_eq_true, decide_eq_true_eq] at hdue
  omega

/-- Witness for C6: a pending row created at time 0 is excluded at
time 20000 under a 7-day window, yet stays in the store. -/
theorem fetch_excludes_old_untouched_witness :
    newCardRead 1 0 "d" "c" "v"
      ∈ (DB.mk [newCardRead 1 0 "d" "c" "v"] 2).rows ∧
    (newCardRead 1 0 "d" "c" "v").sync_status = "pending" ∧
    (newCardRead 1 0 "d" "c" "v").created_at
      < 20000 - ((7 : Nat) : Int) * 1440 ∧
    ((get_pending_syncs (DB.mk [newCardRead 1 0 "d" "c" "v"] 2) 20000 7).1
        = DB.mk [newCardRead 1 0 "d" "c" "v"] 2 ∧
      newCardRead 1 0 "d" "c" "v"
        ∉ (get_pending_syncs (DB.mk [newCardRead 1 0 "d" "c" "v"] 2)
            20000 7).2 ∧
      newCardRead 1 0 "d" "c" "v"
        ∈ (get_pending_syncs (DB.mk [newCardRead 1 0 "d" "c" "v"] 2)
            20000 7).1.rows) :=
  ⟨by decide, by decide, by decide,
   fetch_excludes_old_untouched (DB.mk [newCardRead 1 0 "d" "c" "v"] 2)
     20000 7 (newCardRead 1 0 "d" "c" "v") (by decide) (by decide)
     (by decide)⟩

/-- C9: when the schema version cannot be determined,
`migrate_database` changes nothing and the migration entry point exits
with status 1 instead of proceeding. -/
theorem unknown_schema_fails_loudly (db : SchemaDB)
    (h : check_schema_version db = "unknown") :
    migrate_database db = db ∧
    migrate_main true db = (MigrateMainResult.exitError 1, db) := by
  cases db with
  | legacy rows => simp [check_schema_version] at h
  | current rows => simp [check_schema_version] at h
  | unreadable => exact ⟨rfl, rfl⟩

/-- Witness for C9 on the unreadable layout. -/
theorem unknown_schema_fails_loudly_witness :
    check_schema_version SchemaDB.unreadable = "unknown" ∧
    (migrate_database SchemaDB.unreadable = SchemaDB.unreadable ∧
      migrate_main true SchemaDB.unreadable
        = (MigrateMainResult.exitError 1, SchemaDB.unreadable)) :=
  ⟨rfl, unknown_schema_fails_loudly SchemaDB.unreadable rfl⟩

/-- Marking an event `'success'` establishes `deliveredAt`. -/
theorem deliveredAt_mark (db : DB) (now : Int) (rid : Nat)
    (resp : Option String) :
    deliveredAt (update_sync_status db now rid "success" resp none) rid := by
  intro r hr hrid
  simp only [update_sync_status, List.mem_map] at hr
  obtain ⟨s, hs, rfl⟩ := hr
  by_cases h : s.id = rid
  · simp [applyUpdate, h]
  · rw [applyUpdate_ne _ _ _ _ _ _ h] at hrid ⊢
    exact absurd hrid h

/-- An update keyed on a different id preserves `deliveredAt`. -/
theorem deliveredAt_update_other (db : DB) (now : Int) (rowId rid : Nat)
    (status : String) (resp : Option String) (att : Option Nat)
    (hne : rowId ≠ rid) (hd : deliveredAt db rid) :
    deliveredAt (update_sync_status db now rowId status resp att) rid := by
  intro r hr hrid
  simp only [update_sync_status, List.mem_map] at hr
  obtain ⟨s, hs, rfl⟩ := hr
  rw [applyUpdate_id] at hrid
  have hsne : s.id ≠ rowId := by
    rw [hrid]; exact fun h => hne h.symm
  rw [applyUpdate_ne _ _ _ _ _ _ hsne]
  exact hd s hs hrid

/-- Inserting a fresh row preserves `deliveredAt` for every id below
the autoincrement counter, and keeps the id below the new counter. -/
theorem deliveredAt_insert (db : DB) (now : Int) (dev card value : String)
    (rid : Nat) (hlt : rid < db.nextId) (hd : deliveredAt db rid) :
    deliveredAt (insert_card_read db now dev card value).1 rid ∧
    rid < (insert_card_read db now dev card value).1.nextId := by
  constructor
  · intro r hr hrid
    simp only [insert_card_read, List.mem_append, List.mem_singleton] at hr
    rcases hr with h | h
    · exact hd r h hrid
    · subst h
      exact absurd hrid (by simp [newCardRead]; omega)
  · simp only [insert_card_read]
    omega

/-- A delivered event never satisfies the `get_pending_syncs` filter. -/
theorem deliveredAt_not_fetched (db : DB) (rid : Nat) (t : Int) (m : Nat)
    (hd : deliveredAt db rid) :
    ∀ r ∈ (get_pending_syncs db t m).2, r.id ≠ rid := by
  intro r hr hrid
  simp only [get_pending_syncs, List.mem_insertionSort,
    List.mem_filter] at hr
  obtain ⟨hmem, hdue⟩ := hr
  have hs := hd r hmem hrid
  simp [isDue, hs] at hdue

/-- The worker's fold over a batch of items with foreign ids preserves
`deliveredAt` and the autoincrement counter. -/
theorem deliveredAt_foldl (cfg : Config) (selfDev : String)
    (net : Payload → NetResult) (now : Int) (rid : Nat) :
    ∀ (l : List CardRead) (acc : DB × Nat), (∀ i ∈ l, i.id ≠ rid) →
      deliveredAt acc.1 rid →
      deliveredAt ((l.foldl (syncOne cfg selfDev net now) acc)).1 rid ∧
      ((l.foldl (syncOne cfg selfDev net now) acc)).1.nextId
        = acc.1.nextId := by
  intro l
  induction l with
  | nil => exact fun acc _ hd => ⟨hd, rfl⟩
  | cons i l ih =>
    intro acc hids hd
    have hne : i.id ≠ rid := hids i (List.mem_cons_self i l)
    have h1 : deliveredAt (syncOne cfg selfDev net now acc i).1 rid := by
      unfold syncOne
      rcases send_webhook cfg net selfDev i.card_id i.card_value with ⟨⟨b, response⟩, n⟩
      cases b
      all_goals exact deliveredAt_update_other _ _ _ _ _ _ _ hne hd
    have h2 : (syncOne cfg selfDev net now acc i).1.nextId = acc.1.nextId := by
      unfold syncOne
      rcases send_webhook cfg net selfDev i.card_id i.card_value with ⟨⟨b, response⟩, n⟩
      cases b <;> rfl
    rw [List.foldl_cons]
    obtain ⟨ha, hb⟩ := ih (syncOne cfg selfDev net now acc i)
      (fun j hj => hids j (List.mem_cons_of_mem _ hj)) h1
    exact ⟨ha, by rw [hb, h2]⟩

/-- One drain pass preserves `deliveredAt` and the autoincrement
counter. -/
theorem deliveredAt_drain (cfg : Config) (selfDev : String)
    (net : Payload → NetResult) (now : Int) (db : DB) (rid : Nat)
    (hd : deliveredAt db rid) :
    deliveredAt (sync_pending_data cfg selfDev net now db).1 rid ∧
    (sync_pending_data cfg selfDev net now db).1.nextId = db.nextId := by
  unfold sync_pending_data
  exact deliveredAt_foldl cfg selfDev net now rid _ (db, 0)
    (deliveredAt_not_fetched db rid now 7 hd) hd

/-- Every reachable sequence of system operations preserves
`deliveredAt`. -/
theorem deliveredAt_runOps (rid : Nat) :
    ∀ (ops : List SysOp) (db : DB), deliveredAt db rid →
      rid < db.nextId →
      deliveredAt (runOps db ops) rid ∧ rid < (runOps db ops).nextId := by
  intro ops
  induction ops with
  | nil => exact fun db hd hlt => ⟨hd, hlt⟩
  | cons op ops ih =>
    intro db hd hlt
    have step : deliveredAt (runOp db op) rid ∧ rid < (runOp db op).nextId := by
      cases op with
      | capture now dev card value =>
        exact deliveredAt_insert db now dev card value rid hlt hd
      | drain cfg selfDev net now =>
        obtain ⟨h1, h2⟩ := deliveredAt_drain cfg selfDev net now db rid hd
        exact ⟨h1, lt_of_lt_of_eq hlt h2.symm⟩
    have : runOps db (op :: ops) = runOps (runOp db op) ops := rfl
    rw [this]
    exact ih (runOp db op) step.1 step.2

/-- C3: once `update_sync_status` has recorded `'success'` for an
event, its delivered state is terminal: after any further sequence of
captures and drain passes, every row with that id still reads
`'success'`, and no `get_pending_syncs` call at any time and age
window ever returns it again. -/
theorem success_is_terminal (db : DB) (rid : Nat) (now : Int)
    (resp : Option String) (ops : List SysOp) (t : Int) (m : Nat)
    (hid : rid < db.nextId) :
    ((runOps (update_sync_status db now rid "success" resp none) ops).rows.all
        (fun r => decide (r.id ≠ rid) || (r.sync_status == "success")))
      = true ∧
    ((get_pending_syncs
        (runOps (update_sync_status db now rid "success" resp none) ops)
        t m).2.all (fun r => decide (r.id ≠ rid))) = true := by
  have h0 : deliveredAt (update_sync_status db now rid "success" resp none)
      rid := deliveredAt_mark db now rid resp
  have hlt0 : rid
      < (update_sync_status db now rid "success" resp none).nextId := hid
  obtain ⟨hd, hlt⟩ := deliveredAt_runOps rid ops _ h0 hlt0
  constructor
  · rw [List.all_eq_true]
    intro r hr
    by_cases h : r.id = rid
    · simp [h, hd r hr h]
    · simp [h]
  · rw [List.all_eq_true]
    intro r hr
    simp [deliveredAt_not_fetched _ rid t m hd r hr]

/-- Witness for C3: an event inserted at time 0, delivered at time 5,
stays terminal across a later capture and is absent from a fetch at
time 99. -/
theorem success_is_terminal_witness :
    (1 : Nat) < (DB.mk [newCardRead 1 0 "d" "c" "v"] 2).nextId ∧
    (((runOps (update_sync_status (DB.mk [newCardRead 1 0 "d" "c" "v"] 2)
          5 1 "success" (some "ok") none) [SysOp.capture 10 "d2" "c2" "v2"]).rows.all
        (fun r => decide (r.id ≠ 1) || (r.sync_status == "success")))
      = true ∧
    ((get_pending_syncs
        (runOps (update_sync_status (DB.mk [newCardRead 1 0 "d" "c" "v"] 2)
          5 1 "success" (some "ok") none) [SysOp.capture 10 "d2" "c2" "v2"])
        99 7).2.all (fun r => decide (r.id ≠ 1))) = true) :=
  ⟨by decide,
   success_is_terminal (DB.mk [newCardRead 1 0 "d" "c" "v"] 2) 1 5
     (some "ok") [SysOp.capture 10 "d2" "c2" "v2"] 99 7 (by decide)⟩

/-- C4: recording a failure for a pending row increments
`sync_attempts` by exactly one, stores the reason in
`webhook_response`, and moves `next_retry` to `now` plus the backoff
for the new attempt count; afterwards the updated row is returned by
`get_pending_syncs` exactly when that `next_retry` has passed and the
row is inside the age window. -/
theorem failure_reschedules (db : DB) (now : Int) (reason : String)
    (r : CardRead) (t : Int) (m : Nat) (hmem : r ∈ db.rows)
    (hp : r.sync_status = "pending") :
    (applyUpdate now r.id "pending" (some reason)
        (some (r.sync_attempts + 1)) r).sync_attempts
      = r.sync_attempts + 1 ∧
    (applyUpdate now r.id "pending" (some reason)
        (some (r.sync_attempts + 1)) r).webhook_response = some reason ∧
    (applyUpdate now r.id "pending" (some reason)
        (some (r.sync_attempts + 1)) r).next_retry
      = some (now + (backoff_minutes (r.sync_attempts + 1) : Int)) ∧
    (applyUpdate now r.id "pending" (some reason)
        (some (r.sync_attempts + 1)) r)
      ∈ (update_sync_status db now r.id "pending" (some reason)
          (some (r.sync_attempts + 1))).rows ∧
    ((applyUpdate now r.id "pending" (some reason)
        (some (r.sync_attempts + 1)) r)
        ∈ (get_pending_syncs
            (update_sync_status db now r.id "pending" (some reason)
              (some (r.sync_attempts + 1))) t m).2
      ↔ (now + (backoff_minutes (r.sync_attempts + 1) : Int) ≤ t ∧
          t - (m : Int) * 1440 ≤ r.created_at)) := by
  have hfields : applyUpdate now r.id "pending" (some reason)
      (some (r.sync_attempts + 1)) r
      = { r with sync_status := "pending"
                 sync_attempts := r.sync_attempts + 1
                 last_sync_attempt := some now
                 next_retry :=
                   some (now + (backoff_minutes (r.sync_attempts + 1) : Int))
                 webhook_response := some reason } := by
    simp [applyUpdate]
  refine ⟨by rw [hfields], by rw [hfields], by rw [hfields], ?_, ?_⟩
  · simp only [update_sync_status]
    exact List.mem_map_of_mem _ hmem
  · simp only [get_pending_syncs, List.mem_insertionSort, List.mem_filter]
    constructor
    · rintro ⟨-, hdue⟩
      rw [hfields] at hdue
      simpa [isDue] using hdue
    · rintro ⟨h1, h2⟩
      have hm : applyUpdate now r.id "pending" (some reason)
          (some (r.sync_attempts + 1)) r
          ∈ (update_sync_status db now r.id "pending" (some reason)
              (some (r.sync_attempts + 1))).rows := by
        simp only [update_sync_status]
        exact List.mem_map_of_mem _ hmem
      refine ⟨hm, ?_⟩
      rw [hfields]
      simp [isDue, h1, h2]

/-- Witness for C4: a single pending row failing at time 0 with reason
`"HTTP 500: boom"`, probed at time 1 with a 7-day window. -/
theorem failure_reschedules_witness :
    newCardRead 1 0 "d" "c" "v"
      ∈ (DB.mk [newCardRead 1 0 "d" "c" "v"] 2).rows ∧
    (newCardRead 1 0 "d" "c" "v").sync_status = "pending" ∧
    ((applyUpdate 0 (newCardRead 1 0 "d" "c" "v").id "pending"
        (some "HTTP 500: boom")
        (some ((newCardRead 1 0 "d" "c" "v").sync_attempts + 1))
        (newCardRead 1 0 "d" "c" "v")).sync_attempts
      = (newCardRead 1 0 "d" "c" "v").sync_attempts + 1 ∧
    (applyUpdate 0 (newCardRead 1 0 "d" "c" "v").id "pending"
        (some "HTTP 500: boom")
        (some ((newCardRead 1 0 "d" "c" "v").sync_attempts + 1))
        (newCardRead 1 0 "d" "c" "v")).webhook_response
      = some "HTTP 500: boom" ∧
    (applyUpdate 0 (newCardRead 1 0 "d" "c" "v").id "pending"
        (some "HTTP 500: boom")
        (some ((newCardRead 1 0 "d" "c" "v").sync_attempts + 1))
        (newCardRead 1 0 "d" "c" "v")).next_retry
      = some (0 + (backoff_minutes
          ((newCardRead 1 0 "d" "c" "v").sync_attempts + 1) : Int)) ∧
    (applyUpdate 0 (newCardRead 1 0 "d" "c" "v").id "pending"
        (some "HTTP 500: boom")
        (some ((newCardRead 1 0 "d" "c" "v").sync_attempts + 1))
        (newCardRead 1 0 "d" "c" "v"))
      ∈ (update_sync_status (DB.mk [newCardRead 1 0 "d" "c" "v"] 2) 0
          (newCardRead 1 0 "d" "c" "v").id "pending"
          (some "HTTP 500: boom")
          (some ((newCardRead 1 0 "d" "c" "v").sync_attempts + 1))).rows ∧
    ((applyUpdate 0 (newCardRead 1 0 "d" "c" "v").id "pending"
        (some "HTTP 500: boom")
        (some ((newCardRead 1 0 "d" "c" "v").sync_attempts + 1))
        (newCardRead 1 0 "d" "c" "v"))
        ∈ (get_pending_syncs
            (update_sync_status (DB.mk [newCardRead 1 0 "d" "c" "v"] 2) 0
              (newCardRead 1 0 "d" "c" "v").id "pending"
              (some "HTTP 500: boom")
              (some ((newCardRead 1 0 "d" "c" "v").sync_attempts + 1)))
            1 7).2
      ↔ (0 + (backoff_minutes
            ((newCardRead 1 0 "d" "c" "v").sync_attempts + 1) : Int) ≤ 1 ∧
          1 - ((7 : Nat) : Int) * 1440
            ≤ (newCardRead 1 0 "d" "c" "v").created_at))) :=
  ⟨by decide, by decide,
   failure_reschedules (DB.mk [newCardRead 1 0 "d" "c" "v"] 2) 0
     "HTTP 500: boom" (newCardRead 1 0 "d" "c" "v") 1 7 (by decide)
     (by decide)⟩

/-- C7: with no `webhook_url` configured, `send_webhook` returns the
failure `(False, "No webhook URL configured")` while performing zero
network requests, and the drain pass treats it as an ordinary delivery
failure: it records `'pending'` with the attempt count incremented by
one, which sets `next_retry` to now plus the usual backoff. -/
theorem no_endpoint_ordinary_failure (apiKey : Option String)
    (net : Payload → NetResult) (selfDev dev card value : String)
    (db : DB) (now : Int) (item : CardRead)
    (hdue : (get_pending_syncs db now 7).2 = [item]) :
    send_webhook (Config.mk none apiKey) net dev card value
      = ((false, "No webhook URL configured"), 0) ∧
    sync_pending_data (Config.mk none apiKey) selfDev net now db
      = (update_sync_status db now item.id "pending"
          (some "No webhook URL configured")
          (some (item.sync_attempts + 1)), 0) ∧
    (applyUpdate now item.id "pending" (some "No webhook URL configured")
        (some (item.sync_attempts + 1)) item).sync_attempts
      = item.sync_attempts + 1 ∧
    (applyUpdate now item.id "pending" (some "No webhook URL configured")
        (some (item.sync_attempts + 1)) item).next_retry
      = some (now + (backoff_minutes (item.sync_attempts + 1) : Int)) := by
  refine ⟨rfl, ?_, by simp [applyUpdate], by simp [applyUpdate]⟩
  unfold sync_pending_data
  rw [hdue]
  rfl

/-- Witness for C7: one freshly inserted event, drained with no
endpoint configured. -/
theorem no_endpoint_ordinary_failure_witness :
    (get_pending_syncs (DB.mk [newCardRead 1 0 "d" "c" "v"] 2) 0 7).2
      = [newCardRead 1 0 "d" "c" "v"] ∧
    (send_webhook (Config.mk none (some "key")) (fun _ => NetResult.ok "")
        "d" "c" "v"
      = ((false, "No webhook URL configured"), 0) ∧
    sync_pending_data (Config.mk none (some "key"))
        "d" (fun _ => NetResult.ok "") 0
        (DB.mk [newCardRead 1 0 "d" "c" "v"] 2)
      = (update_sync_status (DB.mk [newCardRead 1 0 "d" "c" "v"] 2) 0
          (newCardRead 1 0 "d" "c" "v").id "pending"
          (some "No webhook URL configured")
          (some ((newCardRead 1 0 "d" "c" "v").sync_attempts + 1)), 0) ∧
    (applyUpdate 0 (newCardRead 1 0 "d" "c" "v").id "pending"
        (some "No webhook URL configured")
        (some ((newCardRead 1 0 "d" "c" "v").sync_attempts + 1))
        (newCardRead 1 0 "d" "c" "v")).sync_attempts
      = (newCardRead 1 0 "d" "c" "v").sync_attempts + 1 ∧
    (applyUpdate 0 (newCardRead 1 0 "d" "c" "v").id "pending"
        (some "No webhook URL configured")
        (some ((newCardRead 1 0 "d" "c" "v").sync_attempts + 1))
        (newCardRead 1 0 "d" "c" "v")).next_retry
      = some (0 + (backoff_minutes
          ((newCardRead 1 0 "d" "c" "v").sync_attempts + 1) : Int))) :=
  ⟨by decide,
   no_endpoint_ordinary_failure (some "key") (fun _ => NetResult.ok "")
     "d" "d" "c" "v" (DB.mk [newCardRead 1 0 "d" "c" "v"] 2) 0
     (newCardRead 1 0 "d" "c" "v") (by decide)⟩

/-- C8 counterexample: insert an event at time 0 (`next_retry = 0`),
then record success at time 5 — a status-changing write, and the last
one applied to this event.  The success branch of
`update_sync_status` does not touch `next_retry`, so it stays 0,
strictly before the write time 5: the claimed invariant
"`next_attempt_at` ≥ the time of the last status-changing write"
fails at this input. -/
theorem next_retry_stale_after_success :
    (update_sync_status (DB.mk [newCardRead 1 0 "d" "c" "v"] 2) 5 1
        "success" (some "ok") none).rows.map CardRead.next_retry
      = [some 0] ∧
    (update_sync_status (DB.mk [newCardRead 1 0 "d" "c" "v"] 2) 5 1
        "success" (some "ok") none).rows.map CardRead.sync_status
      = ["success"] ∧
    (update_sync_status (DB.mk [newCardRead 1 0 "d" "c" "v"] 2) 5 1
        "success" (some "ok") none).rows.map CardRead.last_sync_attempt
      = [some 5] ∧
    (0 : Int) < 5 := by
  refine ⟨rfl, rfl, rfl, by norm_num⟩

/-- C8 (amended): after `insert_card_read` the new row's `next_retry`
equals the write time, and after a failure update `next_retry` is the
write time plus the backoff, hence at or after it; a success update
leaves `next_retry` unchanged, so the bound holds for the writes that
set `next_retry` (append and failure) but not for the success write. -/
theorem next_retry_after_writes (now : Int) (i rowId : Nat)
    (dev card value status : String) (resp : Option String) (a : Nat)
    (r : CardRead) (hfail : status ≠ "success") (hid : r.id = rowId) :
    ((newCardRead i now dev card value).next_retry = some now ∧
      now ≤ now) ∧
    ((applyUpdate now rowId status resp (some a) r).next_retry
        = some (now + (backoff_minutes a : Int)) ∧
      now ≤ now + (backoff_minutes a : Int)) ∧
    (applyUpdate now rowId "success" resp (some a) r).next_retry
      = r.next_retry := by
  refine ⟨⟨rfl, le_refl now⟩, ⟨?_, ?_⟩, ?_⟩
  · simp [applyUpdate, hid, hfail]
  · have h0 : (0 : Int) ≤ (backoff_minutes a : Int) := Int.ofNat_nonneg _
    omega
  · by_cases h : r.id = rowId <;> simp [applyUpdate, h]

/-- Witness for C8's amended statement with a failure recorded at time
7 on a row inserted at time 0, attempt count 2. -/
theorem next_retry_after_writes_witness :
    ("pending" : String) ≠ "success" ∧
    (newCardRead 1 0 "d" "c" "v").id = 1 ∧
    (((newCardRead 1 7 "d" "c" "v").next_retry = some 7 ∧ (7 : Int) ≤ 7) ∧
    ((applyUpdate 7 1 "pending" (some "err") (some 2)
        (newCardRead 1 0 "d" "c" "v")).next_retry
        = some (7 + (backoff_minutes 2 : Int)) ∧
      (7 : Int) ≤ 7 + (backoff_minutes 2 : Int)) ∧
    (applyUpdate 7 1 "success" (some "err") (some 2)
        (newCardRead 1 0 "d" "c" "v")).next_retry
      = (newCardRead 1 0 "d" "c" "v").next_retry) :=
  ⟨by decide, by decide,
   next_retry_after_writes 7 1 1 "d" "c" "v" "pending" (some "err") 2
     (newCardRead 1 0 "d" "c" "v") (by decide) (by decide)⟩

/-- C10: a pending row with `next_retry = NULL` inside the age window
is returned by `get_pending_syncs`; `insert_card_read` never produces
such a row (it always sets `next_retry = now`), while `migrateRow`
carries `next_retry` over verbatim, `NULL` included. -/
theorem null_next_retry_is_due (db : DB) (now : Int) (maxAgeDays : Nat)
    (r : CardRead) (i : Nat) (t : Int) (dev card value : String)
    (lr : LegacyCardRead) (hmem : r ∈ db.rows)
    (hp : r.sync_status = "pending") (hn : r.next_retry = none)
    (hage : now - (maxAgeDays : Int) * 1440 ≤ r.created_at) :
    r ∈ (get_pending_syncs db now maxAgeDays).2 ∧
    (newCardRead i t dev card value).next_retry = some t ∧
    (migrateRow lr).next_retry = lr.next_retry := by
  refine ⟨?_, rfl, rfl⟩
  simp only [get_pending_syncs, List.mem_insertionSort, List.mem_filter]
  refine ⟨hmem, ?_⟩
  simp [isDue, hp, hn, hage]

/-- Witness for C10: a migrated-style pending row with no `next_retry`
is fetched at time 0 with a 0-day window. -/
theorem null_next_retry_is_due_witness :
    (CardRead.mk 1 "d" "c" "" 0 "pending" 0 none none none 0)
      ∈ (DB.mk [CardRead.mk 1 "d" "c" "" 0 "pending" 0 none none none 0]
          2).rows ∧
    (CardRead.mk 1 "d" "c" "" 0 "pending" 0 none none none 0).sync_status
      = "pending" ∧
    (CardRead.mk 1 "d" "c" "" 0 "pending" 0 none none none 0).next_retry
      = none ∧
    (0 : Int) - ((0 : Nat) : Int) * 1440
      ≤ (CardRead.mk 1 "d" "c" "" 0 "pending" 0 none none none 0).created_at ∧
    ((CardRead.mk 1 "d" "c" "" 0 "pending" 0 none none none 0)
        ∈ (get_pending_syncs
            (DB.mk [CardRead.mk 1 "d" "c" "" 0 "pending" 0 none none none 0]
              2) 0 0).2 ∧
      (newCardRead 1 5 "d" "c" "v").next_retry = some 5 ∧
      (migrateRow (LegacyCardRead.mk 1 "d" "c" 0 "pending" 0 none none
          none 0)).next_retry
        = (LegacyCardRead.mk 1 "d" "c" 0 "pending" 0 none none
            none 0).next_retry) :=
  ⟨by decide, by decide, by decide, by decide,
   null_next_retry_is_due
     (DB.mk [CardRead.mk 1 "d" "c" "" 0 "pending" 0 none none none 0] 2)
     0 0 (CardRead.mk 1 "d" "c" "" 0 "pending" 0 none none none 0)
     1 5 "d" "c" "v"
     (LegacyCardRead.mk 1 "d" "c" 0 "pending" 0 none none none 0)
     (by decide) (by decide) (by decide) (by decide)⟩

end RfidReader
